import Mathlib

/-!
Verification of the NWAC forecast cache server (src/app.py).

The server keeps a single in-memory cache
  cache = { last_update, forecasts, is_updating }
refreshed by `update_cache`, triggered in the background by
`update_cache_background`, with staleness decided by `is_cache_stale`,
and served by the Flask handlers `get_forecast` and `get_all_forecasts`.

Embedding conventions:
- Timestamps are integers (seconds).  `datetime.now()` is passed in
  explicitly as a `now` argument; `timedelta` subtraction is integer
  subtraction (which may be negative, as in Python).
- The cache dict is a structure `Cache`; the `forecasts` dict is an
  association list keyed by the zone string.
- The Playwright scraping body is fallible external I/O.  Its outcome is
  passed in as a `RenderResult`: either an exception (the source catches
  every `Exception` and returns `None`) or the data extracted from the
  rendered page (the regex match results for the three elevation labels
  and the ISSUED date).  Rating strings are modelled as lists of
  character codes so that the case-insensitive regex capture and
  Python's `str.capitalize` can be modelled faithfully.
- Flask responses are a `Response`: a JSON forecast payload or an
  error status with its message.
-/

/-- Python `str.lower` restricted to one ASCII character code. -/
def asciiLower (n : Nat) : Nat :=
  if 65 ≤ n ∧ n ≤ 90 then n + 32 else n

/-- Python `str.upper` restricted to one ASCII character code. -/
def asciiUpper (n : Nat) : Nat :=
  if 97 ≤ n ∧ n ≤ 122 then n - 32 else n

/-- Character codes of a string literal. -/
def strCodes (s : String) : List Nat :=
  s.toList.map Char.toNat

/-- Python `str.capitalize`: first character uppercased, the rest
lowercased (on character codes). -/
def pyCapitalize : List Nat → List Nat
  | [] => []
  | c :: rest => asciiUpper c :: rest.map asciiLower

/-- A forecast record as built by `scrape_forecast_playwright`
(src/app.py lines 88-98).  The three danger ratings are the rating
strings as character codes; `cached_at` keeps the capture timestamp
(`datetime.now().isoformat()` abstracted to the integer timestamp). -/
structure ForecastRecord where
  zone_name : String
  publish_date : String
  danger_above_treeline : List Nat
  danger_near_treeline : List Nat
  danger_below_treeline : List Nat
  bottom_line : String
  detailed_forecast : String
  avalanche_problems : List String
  cached_at : Int
deriving Repr, DecidableEq

/-- The in-memory cache dict (src/app.py lines 16-20). -/
structure Cache where
  last_update : Option Int
  forecasts : List (String × ForecastRecord)
  is_updating : Bool
deriving Repr, DecidableEq

/-- The initial cache: `{"last_update": None, "forecasts": {}, "is_updating": False}`. -/
def initialCache : Cache :=
  { last_update := none, forecasts := [], is_updating := false }

/-- `CACHE_DURATION = timedelta(hours=6)`, in seconds. -/
def CACHE_DURATION : Int := 6 * 60 * 60

/-- The `ZONES` dict (src/app.py lines 25-29); keys equal values, so a
list of the zone slugs. -/
def ZONES : List String :=
  ["stevens-pass", "snoqualmie-pass", "east-slopes-central"]

/-- Python dict `.get` on the association-list model of `forecasts`. -/
def dictGet (m : List (String × ForecastRecord)) (z : String) : Option ForecastRecord :=
  match m with
  | [] => none
  | (k, v) :: rest => if z = k then some v else dictGet rest z

/-- The five words of the danger regex alternation
`(Low|Moderate|Considerable|High|Extreme)`, lowercased. -/
def dangerAlternatives : List (List Nat) :=
  [strCodes "low", strCodes "moderate", strCodes "considerable",
   strCodes "high", strCodes "extreme"]

/-- Because the danger pattern is matched with `re.IGNORECASE`, a
capture of its group 1 is exactly a string whose lowercasing is one of
the five alternation words. -/
def isDangerCapture (s : List Nat) : Prop :=
  s.map asciiLower ∈ dangerAlternatives

instance (s : List Nat) : Decidable (isDangerCapture s) := by
  unfold isDangerCapture; infer_instance

/-- `find_danger` (src/app.py lines 65-74) given the regex search
outcome for its label: `m.group(1).capitalize()` on a match, the string
"Unknown" otherwise. -/
def find_danger (m : Option (List Nat)) : List Nat :=
  match m with
  | some s => pyCapitalize s
  | none => strCodes "Unknown"

/-- Data extracted from a successfully rendered page: the regex search
outcomes for the three elevation labels, and the (stripped) capture of
the ISSUED pattern when it matched. -/
structure RenderedPage where
  upperMatch : Option (List Nat)
  middleMatch : Option (List Nat)
  lowerMatch : Option (List Nat)
  issuedMatch : Option String
deriving Repr, DecidableEq

/-- Outcome of the Playwright rendering I/O: an exception, or the page
data.  A missing Playwright install (`ImportError`) is an error
outcome too. -/
abbrev RenderResult : Type := Except String RenderedPage

def isAsciiLetter (c : Char) : Bool :=
  (65 ≤ c.toNat ∧ c.toNat ≤ 90) ∨ (97 ≤ c.toNat ∧ c.toNat ≤ 122)

def upperChar (c : Char) : Char :=
  if 97 ≤ c.toNat ∧ c.toNat ≤ 122 then Char.ofNat (c.toNat - 32) else c

def lowerChar (c : Char) : Char :=
  if 65 ≤ c.toNat ∧ c.toNat ≤ 90 then Char.ofNat (c.toNat + 32) else c

/-- Python `str.title` on a character list: uppercase each ASCII letter
that follows a non-letter, lowercase the other letters (`prevLetter`
says whether the previous character was a letter). -/
def titleChars (prevLetter : Bool) : List Char → List Char
  | [] => []
  | c :: rest =>
    (if isAsciiLetter c then (if prevLetter then lowerChar c else upperChar c)
     else c) :: titleChars (isAsciiLetter c) rest

def zoneDisplayName (slug : String) : String :=
  -- zone_slug.replace("-", " ").title()
  String.mk (titleChars false (slug.toList.map fun c => if c = '-' then ' ' else c))

/-- Python `str.strip`: drop leading and trailing whitespace. -/
def pyStrip (s : String) : String :=
  String.mk
    ((((s.toList.dropWhile Char.isWhitespace).reverse).dropWhile
        Char.isWhitespace).reverse)

/-- The parsing section of `scrape_forecast_playwright` (src/app.py
lines 63-98): compute the three ratings with `find_danger`, return
`None` if all three are "Unknown", otherwise build the record.
`publish_date` falls back to the formatted current time
(`datetime.now().strftime` abstracted to `toString now`); the display
name `zone_slug.replace("-", " ").title()` is computed by
`zoneDisplayName`. -/
def scrape_parse (page : RenderedPage) (zone_slug : String) (now : Int) :
    Option ForecastRecord :=
  let upper := find_danger page.upperMatch
  let middle := find_danger page.middleMatch
  let lower := find_danger page.lowerMatch
  if upper = strCodes "Unknown" ∧ middle = strCodes "Unknown" ∧
      lower = strCodes "Unknown" then
    none
  else
    some
      { zone_name := zoneDisplayName zone_slug
        publish_date :=
          match page.issuedMatch with
          | some s => pyStrip s
          | none => toString now
        danger_above_treeline := upper
        danger_near_treeline := middle
        danger_below_treeline := lower
        bottom_line := ""
        detailed_forecast := ""
        avalanche_problems := []
        cached_at := now }

/-- `scrape_forecast_playwright` (src/app.py lines 32-103): the whole
body is wrapped in try/except — every exception is caught and the
function returns `None`; on a successful render the parsing section
runs. -/
def scrape_forecast_playwright (render : RenderResult) (zone_slug : String)
    (now : Int) : Option ForecastRecord :=
  match render with
  | .error _ => none
  | .ok page => scrape_parse page zone_slug now

/-- The per-zone collection loop of `update_cache` (src/app.py lines
112-119): `forecasts[zone_key] = forecast` exactly when the scrape
returned a record (`if forecast:`; the records built by the scraper are
non-empty dicts, so Python truthiness coincides with `Option`). -/
def collectForecasts (fetch : String → Option ForecastRecord) :
    List String → List (String × ForecastRecord)
  | [] => []
  | z :: zs =>
    match fetch z with
    | some f => (z, f) :: collectForecasts fetch zs
    | none => collectForecasts fetch zs

/-- The first statement of `update_cache` (src/app.py line 108):
`cache["is_updating"] = True`.  Between this point and the final commit
the cache is not written again (the loop only builds the local
`forecasts` dict), so this is the cache state throughout a running,
not-yet-committed refresh cycle. -/
def update_cache_start (c : Cache) : Cache :=
  { c with is_updating := true }

/-- `update_cache` run to completion (src/app.py lines 106-124): set
the flag, scrape every zone of `ZONES` (the render outcome of each
zone's Playwright call is given by `render`), then commit —
`cache["last_update"] = datetime.now()` (the commit time `now`),
`cache["forecasts"] = forecasts`, `cache["is_updating"] = False`. -/
def update_cache (render : String → RenderResult) (now : Int) (c : Cache) :
    Cache :=
  let c1 := update_cache_start c
  { c1 with
    last_update := some now
    forecasts :=
      collectForecasts (fun z => scrape_forecast_playwright (render z) z now)
        ZONES
    is_updating := false }

/-- `update_cache_background` (src/app.py lines 127-136): if
`cache["is_updating"]` is true, return at once without launching;
otherwise start a daemon thread running `update_cache` and return.  The
function itself never writes the cache — the flag is set only later, by
`update_cache` running in the launched thread.  Returns the (unchanged)
cache together with whether a refresh thread was launched. -/
def update_cache_background (c : Cache) : Cache × Bool :=
  if c.is_updating then (c, false) else (c, true)

/-- `is_cache_stale` (src/app.py lines 139-145) as a function of the
cache and the current time: true when never refreshed, otherwise true
iff the age strictly exceeds `CACHE_DURATION`. -/
def is_cache_stale (c : Cache) (now : Int) : Bool :=
  match c.last_update with
  | none => true
  | some t => decide (now - t > CACHE_DURATION)

/-- A Flask response of the forecast endpoints: a 200 with a forecast
record, or an error status code with its JSON error message. -/
inductive Response where
  | ok (f : ForecastRecord)
  | err (status : Nat) (msg : String)
deriving Repr, DecidableEq

/-- `get_forecast` (src/app.py lines 181-197).  Returns the response,
the cache state after the handler body (the handler never writes the
cache; a launched background thread only runs later), and whether a
background refresh was launched. -/
def get_forecast (c : Cache) (now : Int) (zone : String) :
    Response × Cache × Bool :=
  if zone ∈ ZONES then
    let trig := if is_cache_stale c now then update_cache_background c
                else (c, false)
    let c1 := trig.1
    match dictGet c1.forecasts zone with
    | some f => (.ok f, c1, trig.2)
    | none =>
      if c1.is_updating then
        (.err 503 "Cache is being updated, please try again in a moment",
         c1, trig.2)
      else
        (.err 404 ("No forecast available for " ++ zone), c1, trig.2)
  else
    (.err 404 ("Unknown zone: " ++ zone), c, false)

/-- The JSON body returned by `/forecast/all`. -/
structure AllForecasts where
  forecasts : List (String × ForecastRecord)
  cached_at : Option Int
  is_updating : Bool
deriving Repr, DecidableEq

/-- `get_all_forecasts` (src/app.py lines 200-211).  Same
staleness-triggered background refresh, then the full snapshot as-is. -/
def get_all_forecasts (c : Cache) (now : Int) :
    AllForecasts × Cache × Bool :=
  let trig := if is_cache_stale c now then update_cache_background c
              else (c, false)
  let c1 := trig.1
  ({ forecasts := c1.forecasts
     cached_at := c1.last_update
     is_updating := c1.is_updating }, c1, trig.2)

/-! ### Helper lemmas -/

theorem asciiUpper_asciiLower (n : Nat) :
    asciiUpper (asciiLower n) = asciiUpper n := by
  unfold asciiLower asciiUpper
  repeat' split
  all_goals omega

theorem asciiLower_idem (n : Nat) :
    asciiLower (asciiLower n) = asciiLower n := by
  unfold asciiLower
  repeat' split
  all_goals omega

theorem pyCapitalize_map_asciiLower (s : List Nat) :
    pyCapitalize (s.map asciiLower) = pyCapitalize s := by
  cases s with
  | nil => rfl
  | cons c rest =>
    simp [pyCapitalize, List.map_map, Function.comp, asciiUpper_asciiLower,
      asciiLower_idem]

theorem update_cache_background_fst (c : Cache) :
    (update_cache_background c).1 = c := by
  unfold update_cache_background
  split <;> rfl

theorem stale_trigger_fst (c : Cache) (now : Int) :
    (if is_cache_stale c now then update_cache_background c
     else (c, false)).1 = c := by
  split
  · exact update_cache_background_fst c
  · rfl

theorem get_forecast_cache_unchanged (c : Cache) (now : Int) (z : String) :
    (get_forecast c now z).2.1 = c := by
  unfold get_forecast
  split
  · simp only [stale_trigger_fst]
    split
    · rfl
    · split <;> rfl
  · rfl

theorem get_all_forecasts_cache_unchanged (c : Cache) (now : Int) :
    (get_all_forecasts c now).2.1 = c := by
  unfold get_all_forecasts
  simp only [stale_trigger_fst]

theorem dictGet_collectForecasts (f : String → Option ForecastRecord)
    (zs : List String) (z : String) :
    dictGet (collectForecasts f zs) z = if z ∈ zs then f z else none := by
  induction zs with
  | nil => simp [collectForecasts, dictGet]
  | cons a rest ih =>
    cases hf : f a with
    | some v =>
      simp only [collectForecasts, hf, dictGet]
      by_cases hz : z = a
      · subst hz
        simp [hf]
      · simp [hz, ih, List.mem_cons]
    | none =>
      simp only [collectForecasts, hf]
      rw [ih]
      by_cases hz : z = a
      · subst hz
        simp [hf]
      · simp [hz, List.mem_cons]

/-! ### Test fixtures for witnesses and scenarios -/

/-- Render outcome used in the REPLACE-WHOLE scenario: a page that
parses to a record for the zone. -/
def sampleRenderA : RenderResult :=
  Except.ok
    { upperMatch := some (strCodes "Low"),
      middleMatch := some (strCodes "Moderate"),
      lowerMatch := some (strCodes "Low"),
      issuedMatch := some "Jan 1" }

/-- Scenario render oracle: the Fetcher returns a record for
"stevens-pass" and null (here: a caught failure) for every other
zone. -/
def scenarioRender : String → RenderResult := fun z =>
  if z = "stevens-pass" then sampleRenderA else Except.error "unreachable page"

/-- The record `scrape_forecast_playwright` produces from
`sampleRenderA` at commit time 0. -/
def sampleRecordA : ForecastRecord :=
  { zone_name := "Stevens Pass", publish_date := "Jan 1",
    danger_above_treeline := strCodes "Low",
    danger_near_treeline := strCodes "Moderate",
    danger_below_treeline := strCodes "Low",
    bottom_line := "", detailed_forecast := "",
    avalanche_problems := [], cached_at := 0 }

/-- A cache holding `sampleRecordA` for "stevens-pass". -/
def cacheWithA : Cache :=
  { last_update := some 0,
    forecasts := [("stevens-pass", sampleRecordA)],
    is_updating := false }

/-- A record previously cached for "snoqualmie-pass". -/
def sampleRecordB : ForecastRecord :=
  { zone_name := "Snoqualmie Pass", publish_date := "Dec 31",
    danger_above_treeline := strCodes "High",
    danger_near_treeline := strCodes "High",
    danger_below_treeline := strCodes "Considerable",
    bottom_line := "", detailed_forecast := "",
    avalanche_problems := [], cached_at := 0 }

/-- A cache holding `sampleRecordB` for "snoqualmie-pass" — the zone
that fails in the scenario cycle. -/
def cacheWithB : Cache :=
  { last_update := some 0,
    forecasts := [("snoqualmie-pass", sampleRecordB)],
    is_updating := false }

/-- Page fixture whose upper-elevation match is the capture "LOW". -/
def pageW : RenderedPage :=
  { upperMatch := some (strCodes "LOW"), middleMatch := none,
    lowerMatch := none, issuedMatch := none }

/-- The record `scrape_parse` produces from `pageW`. -/
def recW : ForecastRecord :=
  { zone_name := zoneDisplayName "z", publish_date := toString (0 : Int),
    danger_above_treeline := pyCapitalize (strCodes "LOW"),
    danger_near_treeline := strCodes "Unknown",
    danger_below_treeline := strCodes "Unknown",
    bottom_line := "", detailed_forecast := "",
    avalanche_problems := [], cached_at := 0 }

/-- The six rating strings a record can carry: "Unknown" plus the
capitalizations of the five alternation words. -/
def ratingWords : List (List Nat) :=
  [strCodes "Unknown", strCodes "Low", strCodes "Moderate",
   strCodes "Considerable", strCodes "High", strCodes "Extreme"]

theorem find_danger_mem (m : Option (List Nat))
    (hcap : ∀ s, m = some s → isDangerCapture s) :
    find_danger m ∈ ratingWords := by
  cases m with
  | none => decide
  | some s =>
    have h := hcap s rfl
    unfold isDangerCapture at h
    show pyCapitalize s ∈ ratingWords
    rw [← pyCapitalize_map_asciiLower]
    simp only [dangerAlternatives, List.mem_cons, List.not_mem_nil,
      or_false] at h
    rcases h with h | h | h | h | h <;> rw [h] <;> decide

theorem get_forecast_fst_of_some (c : Cache) (now : Int) (z : String)
    (r : ForecastRecord) (hz : z ∈ ZONES)
    (hr : dictGet c.forecasts z = some r) :
    (get_forecast c now z).1 = Response.ok r := by
  unfold get_forecast
  rw [if_pos hz]
  simp only [stale_trigger_fst]
  rw [hr]

theorem get_forecast_fst_of_none (c : Cache) (now : Int) (z : String)
    (hz : z ∈ ZONES) (hn : dictGet c.forecasts z = none) :
    (get_forecast c now z).1 =
      if c.is_updating then
        Response.err 503 "Cache is being updated, please try again in a moment"
      else Response.err 404 ("No forecast available for " ++ z) := by
  unfold get_forecast
  rw [if_pos hz]
  simp only [stale_trigger_fst]
  rw [hn]
  cases hu : c.is_updating <;> simp [hu]

/-! ### Claims -/

/-- C1: the claim states that `update_cache_background` performs an
atomic check-and-set transitioning the in-progress flag from false to
true before returning, so that from a state with the flag false two
trigger attempts cannot both launch a refresh cycle.  The code violates
this: the trigger only reads the flag and never writes it (the flag is
set later, by `update_cache` running inside the launched thread), so
from the initial state a first trigger launches a cycle, returns with
the flag still false, and a second trigger attempt launches a second
cycle. -/
theorem C1_two_triggers_both_launch :
    initialCache.is_updating = false ∧
    (update_cache_background initialCache).2 = true ∧
    (update_cache_background initialCache).1.is_updating = false ∧
    (update_cache_background (update_cache_background initialCache).1).2
      = true := by
  decide

/-- C2: every refresh cycle that runs to completion commits
unconditionally — for any per-zone render outcomes (any number of
fetch successes, including zero) the final cache has the in-progress
flag false and the last-refresh timestamp equal to the commit time. -/
theorem C2_commit_unconditional (render : String → RenderResult)
    (now : Int) (c : Cache) :
    (update_cache render now c).is_updating = false ∧
    (update_cache render now c).last_update = some now :=
  ⟨rfl, rfl⟩

/-- C3: the staleness policy is a pure function of the timestamp data:
true when the last-refresh timestamp is absent; otherwise true iff now
minus last-refresh strictly exceeds the 6-hour threshold; in
particular true at `last_refresh + threshold + 1s` and false at
`last_refresh + threshold - 1s`. -/
theorem C3_staleness_policy (c : Cache) (now t : Int) :
    (c.last_update = none → is_cache_stale c now = true) ∧
    (c.last_update = some t →
      (is_cache_stale c now = true ↔ now - t > CACHE_DURATION)) ∧
    (c.last_update = some t →
      is_cache_stale c (t + CACHE_DURATION + 1) = true ∧
      is_cache_stale c (t + CACHE_DURATION - 1) = false) := by
  refine ⟨fun h => ?_, fun h => ?_, fun h => ?_⟩
  · unfold is_cache_stale
    rw [h]
  · unfold is_cache_stale
    rw [h]
    simp
  · unfold is_cache_stale
    rw [h]
    unfold CACHE_DURATION
    constructor
    · simp only [decide_eq_true_eq]
      omega
    · simp only [decide_eq_false_iff_not]
      omega

/-- Witness for C3 at `last_refresh = 0`: stale one second past the
threshold, fresh one second before it. -/
theorem C3_staleness_policy_witness :
    is_cache_stale
      { last_update := some 0, forecasts := [], is_updating := false }
      21601 = true ∧
    is_cache_stale
      { last_update := some 0, forecasts := [], is_updating := false }
      21599 = false := by
  have h := (C3_staleness_policy
    { last_update := some 0, forecasts := [], is_updating := false }
    0 0).2.2 rfl
  have e1 : (0 : Int) + CACHE_DURATION + 1 = 21601 := by decide
  have e2 : (0 : Int) + CACHE_DURATION - 1 = 21599 := by decide
  rw [e1, e2] at h
  exact h

/-- C4: commit follows REPLACE-WHOLE — after a cycle the committed
mapping holds exactly the zones whose fetch succeeded this cycle (a
zone that failed has no entry even if previously cached), and in the
concrete scenario where the Fetcher returns a record for
"stevens-pass" and fails for the other zones — with "snoqualmie-pass"
previously cached (`cacheWithB`) — `get_all_forecasts` after the
commit returns only the "stevens-pass" record ("snoqualmie-pass" was
dropped), with is_updating false. -/
theorem C4_replace_whole (render : String → RenderResult) (now : Int)
    (c : Cache) (z : String) :
    (dictGet (update_cache render now c).forecasts z =
      if z ∈ ZONES then scrape_forecast_playwright (render z) z now
      else none) ∧
    ((get_all_forecasts (update_cache scenarioRender 0 cacheWithB) 0).1.forecasts =
        [("stevens-pass", sampleRecordA)] ∧
     (get_all_forecasts (update_cache scenarioRender 0 cacheWithB) 0).1.is_updating
        = false) := by
  refine ⟨?_, ?_, ?_⟩
  · exact dictGet_collectForecasts
      (fun zz => scrape_forecast_playwright (render zz) zz now) ZONES z
  · decide
  · decide

/-- C5: a request for a known zone with no cached record returns Busy
(503, retryable) when the in-progress flag is true and NotFound (404,
"No forecast available for the zone") when it is false; the two
outcomes are distinct. -/
theorem C5_nodata_busy_vs_notfound (c : Cache) (now : Int) (z : String)
    (hz : z ∈ ZONES) (hnone : dictGet c.forecasts z = none) :
    ((get_forecast c now z).1 =
      if c.is_updating then
        Response.err 503 "Cache is being updated, please try again in a moment"
      else Response.err 404 ("No forecast available for " ++ z)) ∧
    (∀ s1 s2, Response.err 503 s1 ≠ Response.err 404 s2) := by
  constructor
  · exact get_forecast_fst_of_none c now z hz hnone
  · intro s1 s2 h
    simp at h

/-- Witness for C5: on the initial cache (flag false, nothing cached),
a known zone gets the NotFound outcome. -/
theorem C5_witness :
    (get_forecast initialCache 0 "stevens-pass").1 =
      Response.err 404 "No forecast available for stevens-pass" := by
  have h := (C5_nodata_busy_vs_notfound initialCache 0 "stevens-pass"
    (by decide) rfl).1
  rw [h]
  decide

/-- C6: every refresh cycle that starts exits via commit.  For every
per-zone render behaviour — including raised exceptions — the cycle
runs to completion as a total function: the in-progress flag ends
false and the timestamp is committed; a zone whose scrape raised is
treated as "no record for this zone this cycle" (the exception is
caught inside `scrape_forecast_playwright` and never propagates); the
other zones are still fetched and committed. -/
theorem C6_cycle_always_commits (render : String → RenderResult)
    (now : Int) (c : Cache) :
    ((update_cache render now c).is_updating = false ∧
     (update_cache render now c).last_update = some now) ∧
    (∀ z e, render z = Except.error e →
      dictGet (update_cache render now c).forecasts z = none) ∧
    (∀ z r, scrape_forecast_playwright (render z) z now = some r →
      z ∈ ZONES →
      dictGet (update_cache render now c).forecasts z = some r) := by
  refine ⟨⟨rfl, rfl⟩, ?_, ?_⟩
  · intro z e he
    show dictGet (collectForecasts
      (fun zz => scrape_forecast_playwright (render zz) zz now) ZONES) z
        = none
    rw [dictGet_collectForecasts]
    split
    · simp only [he, scrape_forecast_playwright]
    · rfl
  · intro z r hr hz
    show dictGet (collectForecasts
      (fun zz => scrape_forecast_playwright (render zz) zz now) ZONES) z
        = some r
    rw [dictGet_collectForecasts, if_pos hz]
    exact hr

/-- Witness for C6: a cycle in which every zone's scrape raises still
commits — the flag is cleared and the failed zone has no record. -/
theorem C6_witness :
    (update_cache (fun _ => Except.error "upstream timeout") 0
      initialCache).is_updating = false ∧
    dictGet (update_cache (fun _ => Except.error "upstream timeout") 0
      initialCache).forecasts "stevens-pass" = none := by
  have h := C6_cycle_always_commits
    (fun _ => Except.error "upstream timeout") 0 initialCache
  exact ⟨h.1.1, h.2.1 "stevens-pass" "upstream timeout" rfl⟩

/-- C7: for a zone with a cached record, a read between the start of a
refresh cycle (the flag write, after which the cache is not written
again until the commit) and the commit returns the previously cached
record unchanged — the in-flight state only differs in the flag, not
in the forecasts mapping or timestamp — and the triggering read itself
is answered from the current cache. -/
theorem C7_inflight_read_unchanged (c : Cache) (now nowq : Int)
    (z : String) (r : ForecastRecord) (hz : z ∈ ZONES)
    (hr : dictGet c.forecasts z = some r) :
    (update_cache_start c).forecasts = c.forecasts ∧
    (update_cache_start c).last_update = c.last_update ∧
    (get_forecast (update_cache_start c) nowq z).1 = Response.ok r ∧
    (get_forecast c now z).1 = Response.ok r := by
  refine ⟨rfl, rfl, ?_, ?_⟩
  · exact get_forecast_fst_of_some (update_cache_start c) nowq z r hz hr
  · exact get_forecast_fst_of_some c now z r hz hr

/-- Witness for C7: with "stevens-pass" cached and a refresh running
(flag set, nothing committed), the read still returns the cached
record. -/
theorem C7_witness :
    (get_forecast (update_cache_start cacheWithA) 999999
      "stevens-pass").1 = Response.ok sampleRecordA := by
  exact (C7_inflight_read_unchanged cacheWithA 0 999999 "stevens-pass"
    sampleRecordA (by decide) rfl).2.2.1

/-- C8: the last-refresh timestamp changes only at commit and only
advances: the query handlers and the trigger return the cache
unchanged, starting a cycle leaves the timestamp as it was, and the
commit sets it to the commit time, which is no earlier than the
previous value whenever the commit happens at or after the recorded
time. -/
theorem C8_timestamp_advances (c : Cache) (t now nowq : Int)
    (z : String) (render : String → RenderResult)
    (ht : c.last_update = some t) (hmono : t ≤ now) :
    (get_forecast c nowq z).2.1 = c ∧
    (get_all_forecasts c nowq).2.1 = c ∧
    (update_cache_background c).1 = c ∧
    (update_cache_start c).last_update = some t ∧
    (update_cache render now c).last_update = some now ∧
    t ≤ now := by
  exact ⟨get_forecast_cache_unchanged c nowq z,
    get_all_forecasts_cache_unchanged c nowq,
    update_cache_background_fst c, ht, rfl, hmono⟩

/-- Witness for C8 at a cache last refreshed at time 0, committing at
time 5. -/
theorem C8_witness :
    (get_forecast cacheWithA 1 "stevens-pass").2.1 = cacheWithA ∧
    (update_cache (fun _ => Except.error "down") 5
      cacheWithA).last_update = some 5 ∧
    (0 : Int) ≤ 5 := by
  have h := C8_timestamp_advances cacheWithA 0 5 1 "stevens-pass"
    (fun _ => Except.error "down") rfl (by decide)
  exact ⟨h.1, h.2.2.2.2.1, h.2.2.2.2.2⟩

/-- C9: a request for a zone outside the known set returns 404 with
the "Unknown zone" error body, triggers no refresh, and leaves the
whole cache state unchanged. -/
theorem C9_unknown_zone (c : Cache) (now : Int) (z : String)
    (hz : z ∉ ZONES) :
    get_forecast c now z =
      (Response.err 404 ("Unknown zone: " ++ z), c, false) := by
  unfold get_forecast
  rw [if_neg hz]

/-- Witness for C9 with the unknown zone "X". -/
theorem C9_witness :
    get_forecast initialCache 0 "X" =
      (Response.err 404 "Unknown zone: X", initialCache, false) := by
  have h := C9_unknown_zone initialCache 0 "X" (by decide)
  rw [h]
  decide

/-- C10: every record the scraper produces has its three elevation-band
ratings drawn from the six rating words (Unknown, Low, Moderate,
Considerable, High, Extreme — any regex capture is a case variant of
one of the five danger words, and `capitalize` maps it to the
canonical form), and never has all three equal to "Unknown": in that
case the scraper returns null instead of a record. -/
theorem C10_ratings_enumerated (page : RenderedPage) (slug : String)
    (now : Int) (rec : ForecastRecord)
    (hu : ∀ s, page.upperMatch = some s → isDangerCapture s)
    (hm : ∀ s, page.middleMatch = some s → isDangerCapture s)
    (hl : ∀ s, page.lowerMatch = some s → isDangerCapture s)
    (h : scrape_parse page slug now = some rec) :
    (rec.danger_above_treeline ∈ ratingWords ∧
     rec.danger_near_treeline ∈ ratingWords ∧
     rec.danger_below_treeline ∈ ratingWords) ∧
    ¬(rec.danger_above_treeline = strCodes "Unknown" ∧
      rec.danger_near_treeline = strCodes "Unknown" ∧
      rec.danger_below_treeline = strCodes "Unknown") := by
  simp only [scrape_parse] at h
  split at h
  · simp at h
  · rename_i hall
    injection h with h
    subst h
    exact ⟨⟨find_danger_mem _ hu, find_danger_mem _ hm,
      find_danger_mem _ hl⟩, hall⟩

/-- Witness for C10: a page whose upper capture is "LOW" parses to a
record whose ratings are Low/Unknown/Unknown — all in the enumeration
and not all "Unknown". -/
theorem C10_witness :
    scrape_parse pageW "z" 0 = some recW ∧
    ((recW.danger_above_treeline ∈ ratingWords ∧
      recW.danger_near_treeline ∈ ratingWords ∧
      recW.danger_below_treeline ∈ ratingWords) ∧
     ¬(recW.danger_above_treeline = strCodes "Unknown" ∧
       recW.danger_near_treeline = strCodes "Unknown" ∧
       recW.danger_below_treeline = strCodes "Unknown")) := by
  have hp : scrape_parse pageW "z" 0 = some recW := by decide
  refine ⟨hp, C10_ratings_enumerated pageW "z" 0 recW ?_ ?_ ?_ hp⟩
  · intro s hs
    injection hs with hs
    rw [← hs]
    decide
  · intro s hs
    simp [pageW] at hs
  · intro s hs
    simp [pageW] at hs
